import Mathlib

/-!
Verification of the per-row reconciliation decision-and-update engine of
p2p_manual_reconcile_tool.py.

The engine is embedded shallowly: spreadsheet cell values become the
`Value` type (openpyxl yields None, strings, or numbers), a parsed row is
an association list from column header to `Value`, the two database
handles are the `Handle` type, and the observable behaviour of a piece of
code is a `Res`: the ordered list of file writes and database actions it
performed, together with the exception it raised, if any.  The SQL layer
is abstracted by a function from (handle, statement key, parameters) to
the (rows affected, error message) pair that `execute_sql` returns.
-/

namespace P2P

/-- A spreadsheet cell value as handed to the engine by parse_recon_file:
openpyxl produces None for an empty cell, a string for a text cell and a
number for a numeric cell. -/
inductive Value where
  | vNone : Value
  | vStr : String → Value
  | vInt : Int → Value
deriving DecidableEq

/-- Python truthiness of a cell value. -/
def pyTruthy : Value → Bool
  | Value.vNone => false
  | Value.vStr s => s ≠ ""
  | Value.vInt n => n ≠ 0

/-- Python str applied to a cell value. -/
def pyStr : Value → String
  | Value.vNone => "None"
  | Value.vStr s => s
  | Value.vInt n => toString n

/-- Python str.upper over the character data, ASCII model. -/
def pyToUpper (s : String) : String := String.mk (s.data.map Char.toUpper)

/-- Python v.upper(): defined on strings, raises AttributeError on any
other value. -/
def pyUpper : Value → Except String String
  | Value.vStr s => Except.ok (pyToUpper s)
  | Value.vNone => Except.error "AttributeError: NoneType object has no attribute upper"
  | Value.vInt _ => Except.error "AttributeError: int object has no attribute upper"

/-- Python str.isdigit, over ASCII digits. -/
def pyIsDigit (s : String) : Bool := s ≠ "" && s.data.all Char.isDigit

/-- Decimal reading of a digit string. -/
def digitsToNat (l : List Char) : Nat := l.foldl (fun n c => n * 10 + (c.toNat - 48)) 0

/-- Python int applied to a value that already passed the isdigit guard. -/
def pyInt : Value → Int
  | Value.vNone => 0
  | Value.vStr s => Int.ofNat (digitsToNat s.data)
  | Value.vInt n => n

/-- How a Python f-string renders an optional string: None prints as the
literal text None. -/
def pyStrOpt : Option String → String
  | none => "None"
  | some s => s

/-- One parsed spreadsheet row: the dict built by parse_recon_file, keyed
by column header (all configured headers are present as keys; an empty
cell maps to None). -/
abbrev Row := List (String × Value)

/-- Python dict.get(key, default). -/
def Row.getD (r : Row) (k : String) (d : Value) : Value :=
  match List.find? (fun p => p.1 == k) r with
  | some p => p.2
  | none => d

/-- The two database handles: the P2P connection (detail-record and
payment lanes) and the DNA connection (RTXN and card lanes). -/
inductive Handle where
  | p2p : Handle
  | dna : Handle
deriving DecidableEq

/-- The configured SQL statement templates, identified by their key in
the configuration mapping; the statements themselves are opaque. -/
inductive SqlKey where
  | update_payment : SqlKey
  | update_detail_record : SqlKey
  | insert_rtxn_recon_date : SqlKey
  | update_mc_recon : SqlKey
  | update_visa_recon : SqlKey
deriving DecidableEq

/-- A positional SQL parameter as built by the lane updaters. -/
inductive Param where
  | str : String → Param
  | int : Int → Param
  | val : Value → Param
  | todayDate : Param
  | nowDatetime : Param
  | nowDateStr : Param
deriving DecidableEq

/-- An observable action of the engine: a file write (the string passed
to fh_out.write, without its trailing newline), an executed statement, or
a commit or rollback on a handle. -/
inductive Event where
  | out : String → Event
  | sql : Handle → SqlKey → List Param → Event
  | commit : Handle → Event
  | rollback : Handle → Event
deriving DecidableEq

/-- The behaviour of execute_sql as seen by the lane updaters: for a
handle, statement key and parameter list, the (rows affected, error
message) pair it returns.  Quantifying over this function quantifies over
all database behaviours. -/
def ExecFn : Type := Handle → SqlKey → List Param → Int × Option String

/-- The underlying cursor.execute call of execute_sql: it either yields
a row count or raises with a message.  execute_sql passes the parameter
list only when it is truthy (source lines 214-217). -/
def cursorCall (call : Option (List Param) → Except String Int)
    (params : Option (List Param)) : Except String Int :=
  if (params.getD []).isEmpty then call none else call params

/-- Shallow embedding of execute_sql (source lines 210-222): execute the
statement once, returning the row count on success; catch any failure and
return (0, message). -/
def execute_sql (call : Option (List Param) → Except String Int)
    (params : Option (List Param)) : Int × Option String :=
  match cursorCall call params with
  | Except.ok n => (n, none)
  | Except.error e => (0, some e)

/-- update_p2p_recon_date (source lines 225-240): select the statement by
p2p type, build the parameters from the reconcile-date policy, delegate.
The returned triple also records the statement key and parameters so the
engine's trace can show the database call. -/
def update_p2p_recon_date (ex : ExecFn) (h : Handle) (p2p_type : String)
    (record_id : Int) (reconcile_date : String) :
    SqlKey × List Param × (Int × Option String) :=
  let sql := if p2p_type = "FTF" then SqlKey.update_payment else SqlKey.update_detail_record
  let params :=
    if reconcile_date ≠ "" then [Param.str reconcile_date, Param.int record_id]
    else [Param.nowDateStr, Param.int record_id]
  (sql, params, ex h sql params)

/-- update_rtxn_recon_date (source lines 243-255). -/
def update_rtxn_recon_date (ex : ExecFn) (h : Handle) (acctnbr rtxnnbr : Int)
    (reconcile_date : String) : SqlKey × List Param × (Int × Option String) :=
  let sql := SqlKey.insert_rtxn_recon_date
  let date_value := if reconcile_date ≠ "" then Param.str reconcile_date else Param.nowDatetime
  let params := [Param.int acctnbr, Param.int rtxnnbr, date_value,
                 Param.int acctnbr, Param.int rtxnnbr]
  (sql, params, ex h sql params)

/-- update_card_recon_date (source lines 258-274). -/
def update_card_recon_date (ex : ExecFn) (h : Handle) (network_id : String)
    (network_tran_id : Value) (tran_code : Value) (reconcile_date : String) :
    SqlKey × List Param × (Int × Option String) :=
  if network_id = "MC" then
    let sql := SqlKey.update_mc_recon
    let params :=
      if reconcile_date ≠ "" then [Param.str reconcile_date, Param.val network_tran_id]
      else [Param.todayDate, Param.val network_tran_id]
    (sql, params, ex h sql params)
  else
    let sql := SqlKey.update_visa_recon
    let params :=
      if reconcile_date ≠ "" then
        [Param.str reconcile_date, Param.val network_tran_id, Param.val tran_code]
      else [Param.todayDate, Param.val network_tran_id, Param.val tran_code]
    (sql, params, ex h sql params)

/-- The observable result of a code region: the writes and database
actions it performed in order, and the exception it raised, if any. -/
abbrev Res := List Event × Option String

/-- Sequencing of code regions: the second runs only when the first did
not raise; a raised exception aborts the rest of the row processing while
keeping the effects already performed. -/
def Res.seq (a b : Res) : Res :=
  match a.2 with
  | some e => (a.1, some e)
  | none => (a.1 ++ b.1, b.2)

/-- The outcome message written after an update attempt; this block is
repeated verbatim in all five lanes of the source (e.g. lines 312-317):
a truthy row count picks between the updated and already-populated
messages, a zero row count prints the error message field. -/
def outcomeMsg (updated : Int) (err_msg : Option String) (reconcile_date : String) : String :=
  if updated ≠ 0 then
    if updated > 0 then "Reconcile Date Updated: " ++ reconcile_date
    else "Reconcile Date Not Updated: Reconcile Date is already populated"
  else "Reconcile Date Not Updated: " ++ pyStrOpt err_msg

/-- The outcome line as a trace event. -/
def outcomeEvent (updated : Int) (err_msg : Option String) (reconcile_date : String) : Event :=
  Event.out (outcomeMsg updated err_msg reconcile_date)

/-- The Detail Record lane of update_reconcile_date (source lines 296-317). -/
def laneDetailRecord (ex : ExecFn) (tran : Row) (reconcile_date rpt_only : String) : Res :=
  match pyUpper (tran.getD "UPDATE_DETAIL_RECORD" (Value.vStr "")) with
  | Except.error e => ([], some e)
  | Except.ok flag =>
    if flag = "Y" then
      let lbl := Event.out "DetailRecord Table Update Status:"
      let detail_record_id := tran.getD "DETAIL_RECORD_ID" Value.vNone
      if !pyTruthy detail_record_id || !pyIsDigit (pyStr detail_record_id) then
        ([lbl, Event.out "Reconcile Date Not Updated: DetailRecord Id is undefined or non numeric"], none)
      else
        let r := update_p2p_recon_date ex Handle.p2p "ZELLE" (pyInt detail_record_id) reconcile_date
        let tx := if rpt_only = "N" then Event.commit Handle.p2p else Event.rollback Handle.p2p
        ([lbl, Event.sql Handle.p2p r.1 r.2.1, tx, outcomeEvent r.2.2.1 r.2.2.2 reconcile_date], none)
    else ([], none)

/-- The Payment lane of update_reconcile_date (source lines 320-341). -/
def lanePayment (ex : ExecFn) (tran : Row) (reconcile_date rpt_only : String) : Res :=
  match pyUpper (tran.getD "UPDATE_PAYMENT" (Value.vStr "")) with
  | Except.error e => ([], some e)
  | Except.ok flag =>
    if flag = "Y" then
      let lbl := Event.out "Payment Table Update Status:"
      let payment_id := tran.getD "PAYMENT_ID" Value.vNone
      if !pyTruthy payment_id || !pyIsDigit (pyStr payment_id) then
        ([lbl, Event.out "Reconcile Date Not Updated: Payment Id is undefined or non numeric"], none)
      else
        let r := update_p2p_recon_date ex Handle.p2p "FTF" (pyInt payment_id) reconcile_date
        let tx := if rpt_only = "N" then Event.commit Handle.p2p else Event.rollback Handle.p2p
        ([lbl, Event.sql Handle.p2p r.1 r.2.1, tx, outcomeEvent r.2.2.1 r.2.2.2 reconcile_date], none)
    else ([], none)

/-- The RTXN lane of update_reconcile_date (source lines 344-372): each
invalid identifier field contributes its own reason line. -/
def laneRTXN (ex : ExecFn) (tran : Row) (reconcile_date rpt_only : String) : Res :=
  match pyUpper (tran.getD "UPDATE_RTXN" (Value.vStr "")) with
  | Except.error e => ([], some e)
  | Except.ok flag =>
    if flag = "Y" then
      let lbl := Event.out "RTXN Entity Attribute Update Status:"
      let acctnbr := tran.getD "ACCTNBR" Value.vNone
      let rtxnnbr := tran.getD "RTXNNBR" Value.vNone
      let acctBad := !pyTruthy acctnbr || !pyIsDigit (pyStr acctnbr)
      let rtxnBad := !pyTruthy rtxnnbr || !pyIsDigit (pyStr rtxnnbr)
      if acctBad || rtxnBad then
        ([lbl] ++
         (if acctBad then [Event.out "Reconcile Date Not Updated: ACCTNBR is undefined or non-numeric"] else []) ++
         (if rtxnBad then [Event.out "Reconcile Date Not Updated: RTXNNBR is undefined or non-numeric"] else []), none)
      else
        let r := update_rtxn_recon_date ex Handle.dna (pyInt acctnbr) (pyInt rtxnnbr) reconcile_date
        let tx := if rpt_only = "N" then Event.commit Handle.dna else Event.rollback Handle.dna
        ([lbl, Event.sql Handle.dna r.1 r.2.1, tx, outcomeEvent r.2.2.1 r.2.2.2 reconcile_date], none)
    else ([], none)

/-- The Mastercard lane of update_reconcile_date (source lines 375-396). -/
def laneMC (ex : ExecFn) (tran : Row) (reconcile_date rpt_only : String) : Res :=
  match pyUpper (tran.getD "UPDATE_MC" (Value.vStr "")) with
  | Except.error e => ([], some e)
  | Except.ok flag =>
    if flag = "Y" then
      let lbl := Event.out "MC_ZELDLY Recon Table Update:"
      let network_id := tran.getD "NETWORK_ID" Value.vNone
      if !pyTruthy network_id then
        ([lbl, Event.out "Reconcile Date Not Updated: NETWORK_ID is undefined"], none)
      else
        let r := update_card_recon_date ex Handle.dna "MC" network_id Value.vNone reconcile_date
        let tx := if rpt_only = "N" then Event.commit Handle.dna else Event.rollback Handle.dna
        ([lbl, Event.sql Handle.dna r.1 r.2.1, tx, outcomeEvent r.2.2.1 r.2.2.2 reconcile_date], none)
    else ([], none)

/-- The Visa lane of update_reconcile_date (source lines 399-427).  The
guard and the failure branch re-evaluate tran_type.upper() with Python
short-circuiting, so upper is only reached when the preceding falsiness
tests fail; on a non-string tran_type it raises mid-branch. -/
def laneVISA (ex : ExecFn) (tran : Row) (reconcile_date rpt_only : String) : Res :=
  match pyUpper (tran.getD "UPDATE_VISA" (Value.vStr "")) with
  | Except.error e => ([], some e)
  | Except.ok flag =>
    if flag = "Y" then
      let lbl := Event.out "VISA_RW3 Recon Table Update:"
      let network_id := tran.getD "NETWORK_ID" Value.vNone
      let tran_type := tran.getD "TRAN_TYPE" Value.vNone
      let nwLine := Event.out "Reconcile Date Not Updated: NETWORK_ID is undefined"
      let tcLine := Event.out "Reconcile Date Not Updated: TRAN_CODE is undefined or not CREDIT or DEBIT"
      if !pyTruthy network_id then
        if !pyTruthy tran_type then ([lbl, nwLine, tcLine], none)
        else
          match pyUpper tran_type with
          | Except.error e => ([lbl, nwLine], some e)
          | Except.ok u =>
            if u == "CREDIT" || u == "DEBIT" then ([lbl, nwLine], none)
            else ([lbl, nwLine, tcLine], none)
      else if !pyTruthy tran_type then ([lbl, tcLine], none)
      else
        match pyUpper tran_type with
        | Except.error e => ([lbl], some e)
        | Except.ok u =>
          if u == "CREDIT" || u == "DEBIT" then
            let r := update_card_recon_date ex Handle.dna "VISA" network_id tran_type reconcile_date
            let tx := if rpt_only = "N" then Event.commit Handle.dna else Event.rollback Handle.dna
            ([lbl, Event.sql Handle.dna r.1 r.2.1, tx, outcomeEvent r.2.2.1 r.2.2.2 reconcile_date], none)
          else ([lbl, tcLine], none)
    else ([], none)

/-- Lexicographic comparison of character lists by code point, the order
Python uses to compare strings. -/
def charListLe : List Char → List Char → Bool
  | [], _ => true
  | _ :: _, [] => false
  | a :: as, b :: bs => if a < b then true else if b < a then false else charListLe as bs

/-- Python string comparison a less-or-equal b. -/
def strLe (a b : String) : Bool := charListLe a.data b.data

/-- Insertion of a pair into a list sorted by key. -/
def insertPair (p : String × Value) : List (String × Value) → List (String × Value)
  | [] => [p]
  | q :: rest => if strLe p.1 q.1 then p :: q :: rest else q :: insertPair p rest

/-- Python sorted over the items of the row dict: since dict keys are
unique, sorting the pairs compares the header strings. -/
def sortPairs : List (String × Value) → List (String × Value)
  | [] => []
  | p :: rest => insertPair p (sortPairs rest)

/-- One line of the field block: FIELD: value, with a falsy value
rendered as N/A (source line 289). -/
def renderPair (p : String × Value) : String :=
  p.1 ++ ": " ++ (if pyTruthy p.2 then pyStr p.2 else "N/A")

/-- The field-block lines of one row, sorted by field name. -/
def tranPieces (tran : Row) : List String := (sortPairs tran).map renderPair

/-- Python sep.join: the pieces separated by the separator. -/
def pyJoin (sep : String) : List String → String
  | [] => ""
  | [x] => x
  | x :: rest => x ++ sep ++ pyJoin sep rest

/-- The field block written for one row (source line 289). -/
def tran_line (tran : Row) : String := pyJoin "\n" (tranPieces tran)

/-- The 75-dash separator written under each row header (source line 292). -/
def sep75 : String := String.mk (List.replicate 75 (Char.ofNat 45))

/-- Processing of one row by update_reconcile_date (source lines 285-429):
the row header, separator and field block, then the five lanes in their
fixed source order, then the blank line ending the row block. -/
def processTran (ex : ExecFn) (tran : Row) (reconcile_date rpt_only : String)
    (row_ct : Nat) : Res :=
  Res.seq ([Event.out ("Row " ++ toString row_ct ++ ":"), Event.out sep75,
            Event.out (tran_line tran)], none)
    (Res.seq (laneDetailRecord ex tran reconcile_date rpt_only)
      (Res.seq (lanePayment ex tran reconcile_date rpt_only)
        (Res.seq (laneRTXN ex tran reconcile_date rpt_only)
          (Res.seq (laneMC ex tran reconcile_date rpt_only)
            (Res.seq (laneVISA ex tran reconcile_date rpt_only)
              ([Event.out ""], none))))))

/-- The row loop of update_reconcile_date: row_ct starts at 1 (the header
row) and is incremented before each data row is reported. -/
def rowsLoop (ex : ExecFn) (trans : List Row) (reconcile_date rpt_only : String)
    (row_ct : Nat) : Res :=
  match trans with
  | [] => ([], none)
  | t :: rest =>
    Res.seq (processTran ex t reconcile_date rpt_only (row_ct + 1))
      (rowsLoop ex rest reconcile_date rpt_only (row_ct + 1))

/-- update_reconcile_date (source lines 277-431): a falsy reconcile date
is replaced by the current date formatted MM/DD/YYYY (passed in here as
todayStr), then every row is processed with that one date. -/
def update_reconcile_date (ex : ExecFn) (trans : List Row)
    (reconcile_date : Option String) (rpt_only todayStr : String) : Res :=
  let rdate :=
    match reconcile_date with
    | some s => if s ≠ "" then s else todayStr
    | none => todayStr
  rowsLoop ex trans rdate rpt_only 1

/-- Python str.replace with a one-character pattern and replacement,
which is how run normalizes the date argument (dash to slash). -/
def pyReplaceChar (s : String) (a b : Char) : String :=
  String.mk (s.data.map (fun c => if c = a then b else c))

/-- The RECONCILE_DATE handling in run (source lines 69-71): a truthy
argument has every dash replaced by a slash before any row is processed. -/
def runReconcileArg : Option String → Option String
  | none => none
  | some s => if s ≠ "" then some (pyReplaceChar s (Char.ofNat 45) (Char.ofNat 47)) else some s

/-- run followed by update_reconcile_date: the engine pipeline from the
raw date argument to the full trace. -/
def runEngine (ex : ExecFn) (trans : List Row) (dateArg : Option String)
    (rpt_only todayStr : String) : Res :=
  update_reconcile_date ex trans (runReconcileArg dateArg) rpt_only todayStr

/-- The single reconcile date in effect for a run, as determined by run
and the default at the top of update_reconcile_date. -/
def effectiveDate (dateArg : Option String) (todayStr : String) : String :=
  match runReconcileArg dateArg with
  | some s => if s ≠ "" then s else todayStr
  | none => todayStr

/-- The lane flag check of the source: the flag cell upper-cases to Y. -/
def flagIsY (tran : Row) (key : String) : Prop :=
  pyUpper (tran.getD key (Value.vStr "")) = Except.ok "Y"

/-- The numeric-identifier validation of the source: truthy and all-digit. -/
def numOk (v : Value) : Bool := pyTruthy v && pyIsDigit (pyStr v)

/-- Validation of the Detail Record lane. -/
def detailValid (tran : Row) : Bool := numOk (tran.getD "DETAIL_RECORD_ID" Value.vNone)

/-- Validation of the Payment lane. -/
def paymentValid (tran : Row) : Bool := numOk (tran.getD "PAYMENT_ID" Value.vNone)

/-- Validation of the RTXN lane. -/
def rtxnValid (tran : Row) : Bool :=
  numOk (tran.getD "ACCTNBR" Value.vNone) && numOk (tran.getD "RTXNNBR" Value.vNone)

/-- Validation of the Mastercard lane. -/
def mcValid (tran : Row) : Bool := pyTruthy (tran.getD "NETWORK_ID" Value.vNone)

/-- A tran-type cell that is a string upper-casing to CREDIT or DEBIT. -/
def visaTranTypeOk : Value → Bool
  | Value.vStr s => (pyToUpper s == "CREDIT") || (pyToUpper s == "DEBIT")
  | _ => false

/-- Validation of the Visa lane: truthy network id, and a string
tran type that upper-cases to CREDIT or DEBIT. -/
def visaValid (tran : Row) : Bool :=
  pyTruthy (tran.getD "NETWORK_ID" Value.vNone) &&
  visaTranTypeOk (tran.getD "TRAN_TYPE" Value.vNone)

/-- A cell value on which the falsiness-then-upper validation pattern of
the source cannot raise: a string, or any falsy value. -/
def strOrFalsy (v : Value) : Prop := (∃ s, v = Value.vStr s) ∨ pyTruthy v = false

/-- Number of commits on a handle in a trace. -/
def commits (h : Handle) (evs : List Event) : Nat :=
  evs.countP (fun e => e == Event.commit h)

/-- Number of rollbacks on a handle in a trace. -/
def rollbacks (h : Handle) (evs : List Event) : Nat :=
  evs.countP (fun e => e == Event.rollback h)

/-- Number of executed statements in a trace. -/
def sqlCalls (evs : List Event) : Nat :=
  evs.countP (fun e => match e with | Event.sql _ _ _ => true | _ => false)

/-- A database behaviour that reports one affected row and no error. -/
def exOneRow : ExecFn := fun _ _ _ => (1, none)

/-- A database behaviour that reports zero affected rows and no error. -/
def exZeroRows : ExecFn := fun _ _ _ => (0, none)

/-- A valid Detail Record row used as concrete input in witnesses. -/
def rowDetailOk : Row :=
  [("UPDATE_DETAIL_RECORD", Value.vStr "Y"), ("DETAIL_RECORD_ID", Value.vStr "123")]

/-- A row whose Detail Record flag cell is empty: parse_recon_file stores
None for it, so the flag lookup yields None. -/
def rowNoneFlag : Row := [("UPDATE_DETAIL_RECORD", Value.vNone)]

/-- A row whose Mastercard flag cell is empty while the Visa lane is
requested with valid fields. -/
def rowMcNoneVisaY : Row :=
  [("UPDATE_MC", Value.vNone), ("UPDATE_VISA", Value.vStr "Y"),
   ("NETWORK_ID", Value.vStr "NW1"), ("TRAN_TYPE", Value.vStr "CREDIT")]

/-- The RTXN scenario row of the spec: non-numeric ACCTNBR, numeric RTXNNBR. -/
def rowRtxnScenario : Row :=
  [("UPDATE_RTXN", Value.vStr "Y"), ("ACCTNBR", Value.vStr "abc"), ("RTXNNBR", Value.vStr "456")]

/-- The Visa scenario row of the spec: empty NETWORK_ID, valid TRAN_TYPE. -/
def rowVisaScenario : Row :=
  [("UPDATE_VISA", Value.vStr "Y"), ("NETWORK_ID", Value.vStr ""), ("TRAN_TYPE", Value.vStr "CREDIT")]

/-- A row whose Detail Record flag is the lowercase string n. -/
def rowFlagLower : Row := [("UPDATE_DETAIL_RECORD", Value.vStr "n")]

/-- A row with a genuine numeric zero in a field. -/
def rowZeroAmount : Row := [("AMOUNT", Value.vInt 0)]

/-- A cursor behaviour that reports three affected rows. -/
def callOk : Option (List Param) → Except String Int := fun _ => Except.ok 3

/-- A trace consisting solely of report lines: no statement execution,
no commit, no rollback. -/
def outsOnly (evs : List Event) : Prop := ∀ e ∈ evs, ∃ s, e = Event.out s

/-- A lane result that did not raise, wrote only report lines, executed
no statement and neither committed nor rolled back any handle. -/
def laneInert (r : Res) : Prop :=
  r.2 = none ∧ outsOnly r.1 ∧ sqlCalls r.1 = 0 ∧
  ∀ h, commits h r.1 = 0 ∧ rollbacks h r.1 = 0

theorem str_app_left_cancel {p a b : String} (h : p ++ a = p ++ b) : a = b := by
  apply String.ext
  have h2 : (p ++ a).data = (p ++ b).data := by rw [h]
  simpa [String.data_append] using h2

theorem app_ne_of_no_pref (p l : String) (h : ¬ p.data <+: l.data) (a : String) :
    p ++ a ≠ l := by
  intro heq
  exact h ⟨a.data, by rw [← String.data_append, heq]⟩

theorem app_ne_app_of_no_pref (p q : String) (hp : ¬ p.data <+: q.data)
    (hq : ¬ q.data <+: p.data) (a b : String) : p ++ a ≠ q ++ b := by
  intro heq
  have h3 : p.data ++ a.data = q.data ++ b.data := by
    have h2 := congrArg String.data heq
    simpa [String.data_append] using h2
  have h4 : p.data <+: q.data ++ b.data := ⟨a.data, h3⟩
  have h5 : q.data <+: q.data ++ b.data := List.prefix_append _ _
  rcases List.prefix_or_prefix_of_prefix h4 h5 with h6 | h6
  · exact hp h6
  · exact hq h6

theorem outcomeMsg_upd {u : Int} {e : Option String} {rdate d : String}
    (h : outcomeMsg u e rdate = "Reconcile Date Updated: " ++ d) : d = rdate := by
  unfold outcomeMsg at h
  by_cases h1 : u = 0
  · simp only [h1, ne_eq, not_true_eq_false, if_false, ite_false] at h
    exact absurd h.symm
      (app_ne_app_of_no_pref "Reconcile Date Updated: " "Reconcile Date Not Updated: "
        (by decide) (by decide) d (pyStrOpt e))
  · simp only [ne_eq, h1, not_false_eq_true, if_true, ite_true] at h
    by_cases h2 : u > 0
    · simp only [h2, if_true, ite_true] at h
      exact (str_app_left_cancel h).symm
    · simp only [h2, if_false, ite_false] at h
      exact absurd h.symm (app_ne_of_no_pref _ _ (by decide) d)

theorem laneDetailRecord_shape (ex : ExecFn) (tran : Row) (rdate rpt : String)
    (hf : flagIsY tran "UPDATE_DETAIL_RECORD") (hv : detailValid tran = true) :
    ∃ k ps n em, laneDetailRecord ex tran rdate rpt =
      ([Event.out "DetailRecord Table Update Status:", Event.sql Handle.p2p k ps,
        (if rpt = "N" then Event.commit Handle.p2p else Event.rollback Handle.p2p),
        Event.out (outcomeMsg n em rdate)], none) := by
  rw [flagIsY] at hf
  rw [detailValid, numOk, Bool.and_eq_true] at hv
  refine ⟨(update_p2p_recon_date ex Handle.p2p "ZELLE"
      (pyInt (tran.getD "DETAIL_RECORD_ID" Value.vNone)) rdate).1,
    (update_p2p_recon_date ex Handle.p2p "ZELLE"
      (pyInt (tran.getD "DETAIL_RECORD_ID" Value.vNone)) rdate).2.1,
    (update_p2p_recon_date ex Handle.p2p "ZELLE"
      (pyInt (tran.getD "DETAIL_RECORD_ID" Value.vNone)) rdate).2.2.1,
    (update_p2p_recon_date ex Handle.p2p "ZELLE"
      (pyInt (tran.getD "DETAIL_RECORD_ID" Value.vNone)) rdate).2.2.2, ?_⟩
  unfold laneDetailRecord
  rw [hf]
  simp [hv.1, hv.2, outcomeEvent]

theorem laneDetailRecord_skip (ex : ExecFn) (tran : Row) (rdate rpt f : String)
    (hf : tran.getD "UPDATE_DETAIL_RECORD" (Value.vStr "") = Value.vStr f)
    (hne : pyToUpper f ≠ "Y") : laneDetailRecord ex tran rdate rpt = ([], none) := by
  unfold laneDetailRecord
  rw [hf]
  simp [pyUpper, hne]

theorem laneDetailRecord_invalid (ex : ExecFn) (tran : Row) (rdate rpt : String)
    (hf : flagIsY tran "UPDATE_DETAIL_RECORD") (hv : detailValid tran = false) :
    laneDetailRecord ex tran rdate rpt =
      ([Event.out "DetailRecord Table Update Status:",
        Event.out "Reconcile Date Not Updated: DetailRecord Id is undefined or non numeric"],
       none) := by
  rw [flagIsY] at hf
  rw [detailValid, numOk, Bool.and_eq_false_iff] at hv
  unfold laneDetailRecord
  rw [hf]
  rcases hv with hv | hv <;> simp [hv]

theorem lanePayment_shape (ex : ExecFn) (tran : Row) (rdate rpt : String)
    (hf : flagIsY tran "UPDATE_PAYMENT") (hv : paymentValid tran = true) :
    ∃ k ps n em, lanePayment ex tran rdate rpt =
      ([Event.out "Payment Table Update Status:", Event.sql Handle.p2p k ps,
        (if rpt = "N" then Event.commit Handle.p2p else Event.rollback Handle.p2p),
        Event.out (outcomeMsg n em rdate)], none) := by
  rw [flagIsY] at hf
  rw [paymentValid, numOk, Bool.and_eq_true] at hv
  refine ⟨(update_p2p_recon_date ex Handle.p2p "FTF"
      (pyInt (tran.getD "PAYMENT_ID" Value.vNone)) rdate).1,
    (update_p2p_recon_date ex Handle.p2p "FTF"
      (pyInt (tran.getD "PAYMENT_ID" Value.vNone)) rdate).2.1,
    (update_p2p_recon_date ex Handle.p2p "FTF"
      (pyInt (tran.getD "PAYMENT_ID" Value.vNone)) rdate).2.2.1,
    (update_p2p_recon_date ex Handle.p2p "FTF"
      (pyInt (tran.getD "PAYMENT_ID" Value.vNone)) rdate).2.2.2, ?_⟩
  unfold lanePayment
  rw [hf]
  simp [hv.1, hv.2, outcomeEvent]

theorem lanePayment_skip (ex : ExecFn) (tran : Row) (rdate rpt f : String)
    (hf : tran.getD "UPDATE_PAYMENT" (Value.vStr "") = Value.vStr f)
    (hne : pyToUpper f ≠ "Y") : lanePayment ex tran rdate rpt = ([], none) := by
  unfold lanePayment
  rw [hf]
  simp [pyUpper, hne]

theorem lanePayment_invalid (ex : ExecFn) (tran : Row) (rdate rpt : String)
    (hf : flagIsY tran "UPDATE_PAYMENT") (hv : paymentValid tran = false) :
    lanePayment ex tran rdate rpt =
      ([Event.out "Payment Table Update Status:",
        Event.out "Reconcile Date Not Updated: Payment Id is undefined or non numeric"],
       none) := by
  rw [flagIsY] at hf
  rw [paymentValid, numOk, Bool.and_eq_false_iff] at hv
  unfold lanePayment
  rw [hf]
  rcases hv with hv | hv <;> simp [hv]

theorem laneRTXN_shape (ex : ExecFn) (tran : Row) (rdate rpt : String)
    (hf : flagIsY tran "UPDATE_RTXN") (hv : rtxnValid tran = true) :
    ∃ k ps n em, laneRTXN ex tran rdate rpt =
      ([Event.out "RTXN Entity Attribute Update Status:", Event.sql Handle.dna k ps,
        (if rpt = "N" then Event.commit Handle.dna else Event.rollback Handle.dna),
        Event.out (outcomeMsg n em rdate)], none) := by
  rw [flagIsY] at hf
  rw [rtxnValid, Bool.and_eq_true, numOk, numOk, Bool.and_eq_true, Bool.and_eq_true] at hv
  refine ⟨(update_rtxn_recon_date ex Handle.dna (pyInt (tran.getD "ACCTNBR" Value.vNone))
      (pyInt (tran.getD "RTXNNBR" Value.vNone)) rdate).1,
    (update_rtxn_recon_date ex Handle.dna (pyInt (tran.getD "ACCTNBR" Value.vNone))
      (pyInt (tran.getD "RTXNNBR" Value.vNone)) rdate).2.1,
    (update_rtxn_recon_date ex Handle.dna (pyInt (tran.getD "ACCTNBR" Value.vNone))
      (pyInt (tran.getD "RTXNNBR" Value.vNone)) rdate).2.2.1,
    (update_rtxn_recon_date ex Handle.dna (pyInt (tran.getD "ACCTNBR" Value.vNone))
      (pyInt (tran.getD "RTXNNBR" Value.vNone)) rdate).2.2.2, ?_⟩
  unfold laneRTXN
  rw [hf]
  simp [hv.1.1, hv.1.2, hv.2.1, hv.2.2, outcomeEvent]

theorem laneRTXN_skip (ex : ExecFn) (tran : Row) (rdate rpt f : String)
    (hf : tran.getD "UPDATE_RTXN" (Value.vStr "") = Value.vStr f)
    (hne : pyToUpper f ≠ "Y") : laneRTXN ex tran rdate rpt = ([], none) := by
  unfold laneRTXN
  rw [hf]
  simp [pyUpper, hne]

theorem laneMC_shape (ex : ExecFn) (tran : Row) (rdate rpt : String)
    (hf : flagIsY tran "UPDATE_MC") (hv : mcValid tran = true) :
    ∃ k ps n em, laneMC ex tran rdate rpt =
      ([Event.out "MC_ZELDLY Recon Table Update:", Event.sql Handle.dna k ps,
        (if rpt = "N" then Event.commit Handle.dna else Event.rollback Handle.dna),
        Event.out (outcomeMsg n em rdate)], none) := by
  rw [flagIsY] at hf
  rw [mcValid] at hv
  refine ⟨(update_card_recon_date ex Handle.dna "MC" (tran.getD "NETWORK_ID" Value.vNone)
      Value.vNone rdate).1,
    (update_card_recon_date ex Handle.dna "MC" (tran.getD "NETWORK_ID" Value.vNone)
      Value.vNone rdate).2.1,
    (update_card_recon_date ex Handle.dna "MC" (tran.getD "NETWORK_ID" Value.vNone)
      Value.vNone rdate).2.2.1,
    (update_card_recon_date ex Handle.dna "MC" (tran.getD "NETWORK_ID" Value.vNone)
      Value.vNone rdate).2.2.2, ?_⟩
  unfold laneMC
  rw [hf]
  simp [hv, outcomeEvent]

theorem laneMC_skip (ex : ExecFn) (tran : Row) (rdate rpt f : String)
    (hf : tran.getD "UPDATE_MC" (Value.vStr "") = Value.vStr f)
    (hne : pyToUpper f ≠ "Y") : laneMC ex tran rdate rpt = ([], none) := by
  unfold laneMC
  rw [hf]
  simp [pyUpper, hne]

theorem laneMC_invalid (ex : ExecFn) (tran : Row) (rdate rpt : String)
    (hf : flagIsY tran "UPDATE_MC") (hv : mcValid tran = false) :
    laneMC ex tran rdate rpt =
      ([Event.out "MC_ZELDLY Recon Table Update:",
        Event.out "Reconcile Date Not Updated: NETWORK_ID is undefined"], none) := by
  rw [flagIsY] at hf
  rw [mcValid] at hv
  unfold laneMC
  rw [hf]
  simp [hv]

theorem laneVISA_shape (ex : ExecFn) (tran : Row) (rdate rpt : String)
    (hf : flagIsY tran "UPDATE_VISA") (hv : visaValid tran = true) :
    ∃ k ps n em, laneVISA ex tran rdate rpt =
      ([Event.out "VISA_RW3 Recon Table Update:", Event.sql Handle.dna k ps,
        (if rpt = "N" then Event.commit Handle.dna else Event.rollback Handle.dna),
        Event.out (outcomeMsg n em rdate)], none) := by
  rw [flagIsY] at hf
  rw [visaValid, Bool.and_eq_true] at hv
  obtain ⟨hnw, hmatch⟩ := hv
  cases htt : tran.getD "TRAN_TYPE" Value.vNone with
  | vNone => rw [htt] at hmatch; simp [visaTranTypeOk] at hmatch
  | vInt n => rw [htt] at hmatch; simp [visaTranTypeOk] at hmatch
  | vStr s =>
    rw [htt] at hmatch
    simp only [visaTranTypeOk, Bool.or_eq_true, beq_iff_eq] at hmatch
    have hs : s ≠ "" := by
      intro hcon
      subst hcon
      exact absurd hmatch (by decide)
    have hts : pyTruthy (Value.vStr s) = true := by simp [pyTruthy, hs]
    refine ⟨(update_card_recon_date ex Handle.dna "VISA" (tran.getD "NETWORK_ID" Value.vNone)
        (Value.vStr s) rdate).1,
      (update_card_recon_date ex Handle.dna "VISA" (tran.getD "NETWORK_ID" Value.vNone)
        (Value.vStr s) rdate).2.1,
      (update_card_recon_date ex Handle.dna "VISA" (tran.getD "NETWORK_ID" Value.vNone)
        (Value.vStr s) rdate).2.2.1,
      (update_card_recon_date ex Handle.dna "VISA" (tran.getD "NETWORK_ID" Value.vNone)
        (Value.vStr s) rdate).2.2.2, ?_⟩
    unfold laneVISA
    rw [hf, htt]
    rcases hmatch with hc | hc <;> simp [hnw, hts, pyUpper, hc, outcomeEvent]

theorem laneVISA_skip (ex : ExecFn) (tran : Row) (rdate rpt f : String)
    (hf : tran.getD "UPDATE_VISA" (Value.vStr "") = Value.vStr f)
    (hne : pyToUpper f ≠ "Y") : laneVISA ex tran rdate rpt = ([], none) := by
  unfold laneVISA
  rw [hf]
  simp [pyUpper, hne]

theorem outsOnly_nil : outsOnly [] := by
  intro e he
  simp at he

theorem outsOnly_cons (s : String) {l : List Event} (h : outsOnly l) :
    outsOnly (Event.out s :: l) := by
  intro e he
  rcases List.mem_cons.mp he with h1 | h1
  · exact ⟨s, h1⟩
  · exact h e h1

theorem outsOnly_counts {evs : List Event} (h : outsOnly evs) :
    sqlCalls evs = 0 ∧ ∀ hd, commits hd evs = 0 ∧ rollbacks hd evs = 0 := by
  induction evs with
  | nil => simp [sqlCalls, commits, rollbacks]
  | cons a l ih =>
    obtain ⟨s, hs⟩ := h a (List.mem_cons_self a l)
    have h2 : outsOnly l := fun e he => h e (List.mem_cons_of_mem _ he)
    obtain ⟨ih1, ih2⟩ := ih h2
    subst hs
    refine ⟨?_, fun hd => ⟨?_, ?_⟩⟩
    · simpa [sqlCalls, List.countP_cons] using ih1
    · simpa [commits, List.countP_cons, beq_iff_eq] using (ih2 hd).1
    · simpa [rollbacks, List.countP_cons, beq_iff_eq] using (ih2 hd).2

theorem laneInert_of_outs {r : Res} (h2 : r.2 = none) (h1 : outsOnly r.1) : laneInert r :=
  ⟨h2, h1, (outsOnly_counts h1).1, (outsOnly_counts h1).2⟩

theorem outsOnly_append {a b : List Event} (ha : outsOnly a) (hb : outsOnly b) :
    outsOnly (a ++ b) := by
  intro e he
  rcases List.mem_append.mp he with h | h
  · exact ha e h
  · exact hb e h

theorem outsOnly_ite (c : Bool) {a b : List Event} (ha : outsOnly a) (hb : outsOnly b) :
    outsOnly (if c then a else b) := by
  cases c
  · simpa using hb
  · simpa using ha

theorem outsOnly_one (a : String) : outsOnly [Event.out a] :=
  outsOnly_cons a outsOnly_nil

theorem outsOnly_two (a b : String) : outsOnly [Event.out a, Event.out b] :=
  outsOnly_cons a (outsOnly_one b)

theorem outsOnly_three (a b c : String) : outsOnly [Event.out a, Event.out b, Event.out c] :=
  outsOnly_cons a (outsOnly_two b c)

theorem inert_two (a b : String) : laneInert ([Event.out a, Event.out b], none) :=
  laneInert_of_outs rfl (outsOnly_two a b)

theorem inert_three (a b c : String) :
    laneInert ([Event.out a, Event.out b, Event.out c], none) :=
  laneInert_of_outs rfl (outsOnly_three a b c)

theorem laneRTXN_inert (ex : ExecFn) (tran : Row) (rdate rpt : String)
    (hf : flagIsY tran "UPDATE_RTXN") (hv : rtxnValid tran = false) :
    laneInert (laneRTXN ex tran rdate rpt) := by
  rw [flagIsY] at hf
  rw [rtxnValid] at hv
  have hcond : ((!pyTruthy (tran.getD "ACCTNBR" Value.vNone) ||
      !pyIsDigit (pyStr (tran.getD "ACCTNBR" Value.vNone))) ||
      (!pyTruthy (tran.getD "RTXNNBR" Value.vNone) ||
      !pyIsDigit (pyStr (tran.getD "RTXNNBR" Value.vNone)))) = true := by
    rw [numOk, numOk] at hv
    rcases Bool.and_eq_false_iff.mp hv with h | h <;>
      rcases Bool.and_eq_false_iff.mp h with h2 | h2 <;> simp [h2]
  unfold laneRTXN
  rw [hf]
  simp only [hcond, if_true, ite_true, reduceIte]
  apply laneInert_of_outs rfl
  exact outsOnly_append
    (outsOnly_append (outsOnly_one _)
      (outsOnly_ite _ (outsOnly_one _) outsOnly_nil))
    (outsOnly_ite _ (outsOnly_one _) outsOnly_nil)

theorem laneVISA_inert (ex : ExecFn) (tran : Row) (rdate rpt : String)
    (hf : flagIsY tran "UPDATE_VISA")
    (hst : strOrFalsy (tran.getD "TRAN_TYPE" Value.vNone))
    (hv : visaValid tran = false) : laneInert (laneVISA ex tran rdate rpt) := by
  rw [flagIsY] at hf
  rw [visaValid] at hv
  unfold laneVISA
  rw [hf]
  rcases hst with ⟨s, hsv⟩ | hfal
  · rw [hsv] at hv ⊢
    have httf : pyTruthy (Value.vStr "") = false := by simp [pyTruthy]
    cases hnw : pyTruthy (tran.getD "NETWORK_ID" Value.vNone) with
    | false =>
      by_cases hse : s = ""
      · subst hse
        simp [hnw, httf, pyUpper]
        exact inert_three _ _ _
      · have hts : pyTruthy (Value.vStr s) = true := by simp [pyTruthy, hse]
        by_cases hcond : pyToUpper s = "CREDIT" ∨ pyToUpper s = "DEBIT"
        · simp [hnw, hts, pyUpper, hcond]
          exact inert_two _ _
        · simp [hnw, hts, pyUpper, hcond]
          exact inert_three _ _ _
    | true =>
      rw [hnw] at hv
      simp only [Bool.true_and, visaTranTypeOk, Bool.or_eq_false_iff, beq_eq_false_iff_ne] at hv
      by_cases hse : s = ""
      · subst hse
        simp [hnw, httf, pyUpper]
        exact inert_two _ _
      · have hts : pyTruthy (Value.vStr s) = true := by simp [pyTruthy, hse]
        simp [hnw, hts, pyUpper, hv.1, hv.2]
        exact inert_two _ _
  · cases hnw : pyTruthy (tran.getD "NETWORK_ID" Value.vNone) with
    | false =>
      simp [hnw, hfal]
      exact inert_three _ _ _
    | true =>
      simp [hnw, hfal]
      exact inert_two _ _

theorem laneDetailRecord_upd (ex : ExecFn) (tran : Row) (rdate rpt d : String)
    (h : Event.out ("Reconcile Date Updated: " ++ d) ∈ (laneDetailRecord ex tran rdate rpt).1) :
    d = rdate := by
  unfold laneDetailRecord at h
  cases hu : pyUpper (tran.getD "UPDATE_DETAIL_RECORD" (Value.vStr "")) with
  | error e => rw [hu] at h; simp at h
  | ok f =>
    rw [hu] at h
    by_cases hf : f = "Y"
    · subst hf
      cases hvb : (!pyTruthy (tran.getD "DETAIL_RECORD_ID" Value.vNone) ||
          !pyIsDigit (pyStr (tran.getD "DETAIL_RECORD_ID" Value.vNone))) with
      | true =>
        simp [hvb] at h
        rcases h with h | h <;> exact absurd h (app_ne_of_no_pref _ _ (by decide) d)
      | false =>
        by_cases hr : rpt = "N"
        · simp [hvb, hr, outcomeEvent] at h
          rcases h with h | h
          · exact absurd h (app_ne_of_no_pref _ _ (by decide) d)
          · exact outcomeMsg_upd h.symm
        · simp [hvb, hr, outcomeEvent] at h
          rcases h with h | h
          · exact absurd h (app_ne_of_no_pref _ _ (by decide) d)
          · exact outcomeMsg_upd h.symm
    · simp [hf] at h

theorem lanePayment_upd (ex : ExecFn) (tran : Row) (rdate rpt d : String)
    (h : Event.out ("Reconcile Date Updated: " ++ d) ∈ (lanePayment ex tran rdate rpt).1) :
    d = rdate := by
  unfold lanePayment at h
  cases hu : pyUpper (tran.getD "UPDATE_PAYMENT" (Value.vStr "")) with
  | error e => rw [hu] at h; simp at h
  | ok f =>
    rw [hu] at h
    by_cases hf : f = "Y"
    · subst hf
      cases hvb : (!pyTruthy (tran.getD "PAYMENT_ID" Value.vNone) ||
          !pyIsDigit (pyStr (tran.getD "PAYMENT_ID" Value.vNone))) with
      | true =>
        simp [hvb] at h
        rcases h with h | h <;> exact absurd h (app_ne_of_no_pref _ _ (by decide) d)
      | false =>
        by_cases hr : rpt = "N"
        · simp [hvb, hr, outcomeEvent] at h
          rcases h with h | h
          · exact absurd h (app_ne_of_no_pref _ _ (by decide) d)
          · exact outcomeMsg_upd h.symm
        · simp [hvb, hr, outcomeEvent] at h
          rcases h with h | h
          · exact absurd h (app_ne_of_no_pref _ _ (by decide) d)
          · exact outcomeMsg_upd h.symm
    · simp [hf] at h

theorem laneRTXN_upd (ex : ExecFn) (tran : Row) (rdate rpt d : String)
    (h : Event.out ("Reconcile Date Updated: " ++ d) ∈ (laneRTXN ex tran rdate rpt).1) :
    d = rdate := by
  unfold laneRTXN at h
  cases hu : pyUpper (tran.getD "UPDATE_RTXN" (Value.vStr "")) with
  | error e => rw [hu] at h; simp at h
  | ok f =>
    rw [hu] at h
    by_cases hf : f = "Y"
    · subst hf
      cases ha : (!pyTruthy (tran.getD "ACCTNBR" Value.vNone) ||
          !pyIsDigit (pyStr (tran.getD "ACCTNBR" Value.vNone))) with
      | true =>
        cases hb : (!pyTruthy (tran.getD "RTXNNBR" Value.vNone) ||
            !pyIsDigit (pyStr (tran.getD "RTXNNBR" Value.vNone))) with
        | true =>
          simp [ha, hb] at h
          rcases h with h | h | h <;> exact absurd h (app_ne_of_no_pref _ _ (by decide) d)
        | false =>
          simp [ha, hb] at h
          rcases h with h | h <;> exact absurd h (app_ne_of_no_pref _ _ (by decide) d)
      | false =>
        cases hb : (!pyTruthy (tran.getD "RTXNNBR" Value.vNone) ||
            !pyIsDigit (pyStr (tran.getD "RTXNNBR" Value.vNone))) with
        | true =>
          simp [ha, hb] at h
          rcases h with h | h <;> exact absurd h (app_ne_of_no_pref _ _ (by decide) d)
        | false =>
          by_cases hr : rpt = "N"
          · simp [ha, hb, hr, outcomeEvent] at h
            rcases h with h | h
            · exact absurd h (app_ne_of_no_pref _ _ (by decide) d)
            · exact outcomeMsg_upd h.symm
          · simp [ha, hb, hr, outcomeEvent] at h
            rcases h with h | h
            · exact absurd h (app_ne_of_no_pref _ _ (by decide) d)
            · exact outcomeMsg_upd h.symm
    · simp [hf] at h

theorem laneMC_upd (ex : ExecFn) (tran : Row) (rdate rpt d : String)
    (h : Event.out ("Reconcile Date Updated: " ++ d) ∈ (laneMC ex tran rdate rpt).1) :
    d = rdate := by
  unfold laneMC at h
  cases hu : pyUpper (tran.getD "UPDATE_MC" (Value.vStr "")) with
  | error e => rw [hu] at h; simp at h
  | ok f =>
    rw [hu] at h
    by_cases hf : f = "Y"
    · subst hf
      cases hnw : pyTruthy (tran.getD "NETWORK_ID" Value.vNone) with
      | false =>
        simp [hnw] at h
        rcases h with h | h <;> exact absurd h (app_ne_of_no_pref _ _ (by decide) d)
      | true =>
        by_cases hr : rpt = "N"
        · simp [hnw, hr, outcomeEvent] at h
          rcases h with h | h
          · exact absurd h (app_ne_of_no_pref _ _ (by decide) d)
          · exact outcomeMsg_upd h.symm
        · simp [hnw, hr, outcomeEvent] at h
          rcases h with h | h
          · exact absurd h (app_ne_of_no_pref _ _ (by decide) d)
          · exact outcomeMsg_upd h.symm
    · simp [hf] at h

theorem laneVISA_upd (ex : ExecFn) (tran : Row) (rdate rpt d : String)
    (h : Event.out ("Reconcile Date Updated: " ++ d) ∈ (laneVISA ex tran rdate rpt).1) :
    d = rdate := by
  unfold laneVISA at h
  cases hu : pyUpper (tran.getD "UPDATE_VISA" (Value.vStr "")) with
  | error e => rw [hu] at h; simp at h
  | ok f =>
    rw [hu] at h
    by_cases hf : f = "Y"
    · subst hf
      cases hnw : pyTruthy (tran.getD "NETWORK_ID" Value.vNone) with
      | false =>
        cases htt : pyTruthy (tran.getD "TRAN_TYPE" Value.vNone) with
        | false =>
          simp [hnw, htt] at h
          rcases h with h | h | h <;> exact absurd h (app_ne_of_no_pref _ _ (by decide) d)
        | true =>
          cases hu2 : pyUpper (tran.getD "TRAN_TYPE" Value.vNone) with
          | error e =>
            simp [hnw, htt, hu2] at h
            rcases h with h | h <;> exact absurd h (app_ne_of_no_pref _ _ (by decide) d)
          | ok u =>
            cases hc : (u == "CREDIT" || u == "DEBIT") with
            | true =>
              simp [hnw, htt, hu2, hc] at h
              rcases h with h | h <;> exact absurd h (app_ne_of_no_pref _ _ (by decide) d)
            | false =>
              simp [hnw, htt, hu2, hc] at h
              rcases h with h | h | h <;> exact absurd h (app_ne_of_no_pref _ _ (by decide) d)
      | true =>
        cases htt : pyTruthy (tran.getD "TRAN_TYPE" Value.vNone) with
        | false =>
          simp [hnw, htt] at h
          rcases h with h | h <;> exact absurd h (app_ne_of_no_pref _ _ (by decide) d)
        | true =>
          cases hu2 : pyUpper (tran.getD "TRAN_TYPE" Value.vNone) with
          | error e =>
            simp [hnw, htt, hu2] at h
            exact absurd h (app_ne_of_no_pref _ _ (by decide) d)
          | ok u =>
            cases hc : (u == "CREDIT" || u == "DEBIT") with
            | true =>
              by_cases hr : rpt = "N"
              · simp [hnw, htt, hu2, hc, hr, outcomeEvent] at h
                rcases h with h | h
                · exact absurd h (app_ne_of_no_pref _ _ (by decide) d)
                · exact outcomeMsg_upd h.symm
              · simp [hnw, htt, hu2, hc, hr, outcomeEvent] at h
                rcases h with h | h
                · exact absurd h (app_ne_of_no_pref _ _ (by decide) d)
                · exact outcomeMsg_upd h.symm
            | false =>
              simp [hnw, htt, hu2, hc] at h
              rcases h with h | h <;> exact absurd h (app_ne_of_no_pref _ _ (by decide) d)
    · simp [hf] at h

theorem not_lt_of_charListLe :
    ∀ as bs : List Char, charListLe as bs = true → ¬ List.lt bs as := by
  intro as
  induction as with
  | nil =>
    intro bs _ hlt
    cases hlt
  | cons a as2 ih =>
    intro bs h hlt
    cases bs with
    | nil => simp [charListLe] at h
    | cons b bs2 =>
      by_cases hab : a < b
      · cases hlt with
        | head _ _ h1 => exact (lt_asymm hab) h1
        | tail h1 h2 h3 => exact h2 hab
      · by_cases hba : b < a
        · rw [charListLe, if_neg hab, if_pos hba] at h
          exact Bool.false_ne_true h
        · rw [charListLe, if_neg hab, if_neg hba] at h
          cases hlt with
          | head _ _ h1 => exact hba h1
          | tail h1 h2 h3 => exact ih bs2 h h3

theorem lt_of_charListLe_eq_false :
    ∀ as bs : List Char, charListLe as bs = false → List.lt bs as := by
  intro as
  induction as with
  | nil =>
    intro bs h
    simp [charListLe] at h
  | cons a as2 ih =>
    intro bs h
    cases bs with
    | nil => exact List.lt.nil a as2
    | cons b bs2 =>
      by_cases hab : a < b
      · rw [charListLe, if_pos hab] at h
        simp at h
      · by_cases hba : b < a
        · exact List.lt.head bs2 as2 hba
        · rw [charListLe, if_neg hab, if_neg hba] at h
          exact List.lt.tail hba hab (ih bs2 h)

theorem le_of_strLe {a b : String} (h : strLe a b = true) : a ≤ b := by
  rw [String.le_iff_toList_le]
  apply le_of_not_lt
  intro hlt
  have h2 : List.lt b.toList a.toList := (List.lt_iff_lex_lt _ _).mpr hlt
  exact not_lt_of_charListLe a.data b.data h h2

theorem le_of_strLe_eq_false {a b : String} (h : strLe a b = false) : b ≤ a := by
  rw [String.le_iff_toList_le]
  apply le_of_lt
  have h2 : List.lt b.toList a.toList := lt_of_charListLe_eq_false a.data b.data h
  exact (List.lt_iff_lex_lt _ _).mp h2

theorem mem_insertPair {a p : String × Value} {l : List (String × Value)} :
    a ∈ insertPair p l ↔ a = p ∨ a ∈ l := by
  induction l with
  | nil => simp [insertPair]
  | cons q rest ih =>
    cases h : strLe p.1 q.1 with
    | true => simp [insertPair, h]
    | false =>
      simp only [insertPair, h, if_false, ite_false, Bool.false_eq_true, List.mem_cons, ih]
      tauto

theorem mem_sortPairs_of_mem {a : String × Value} {l : List (String × Value)}
    (h : a ∈ l) : a ∈ sortPairs l := by
  induction l with
  | nil => simp at h
  | cons p rest ih =>
    show a ∈ insertPair p (sortPairs rest)
    rcases List.mem_cons.mp h with h1 | h1
    · exact mem_insertPair.mpr (Or.inl h1)
    · exact mem_insertPair.mpr (Or.inr (ih h1))

theorem sorted_insertPair (p : String × Value) {l : List (String × Value)}
    (h : List.Pairwise (fun a b : String × Value => a.1 ≤ b.1) l) :
    List.Pairwise (fun a b : String × Value => a.1 ≤ b.1) (insertPair p l) := by
  induction l with
  | nil => simp [insertPair]
  | cons q rest ih =>
    obtain ⟨hq, hrest⟩ := List.pairwise_cons.mp h
    cases hle : strLe p.1 q.1 with
    | true =>
      rw [insertPair, if_pos hle]
      refine List.pairwise_cons.mpr ⟨?_, h⟩
      intro a ha
      rcases List.mem_cons.mp ha with h1 | h1
      · rw [h1]; exact le_of_strLe hle
      · exact le_trans (le_of_strLe hle) (hq a h1)
    | false =>
      rw [insertPair, if_neg (by simp [hle])]
      refine List.pairwise_cons.mpr ⟨?_, ih hrest⟩
      intro a ha
      rcases mem_insertPair.mp ha with h1 | h1
      · rw [h1]; exact le_of_strLe_eq_false hle
      · exact hq a h1

theorem sorted_sortPairs (l : List (String × Value)) :
    List.Pairwise (fun a b : String × Value => a.1 ≤ b.1) (sortPairs l) := by
  induction l with
  | nil => simp [sortPairs]
  | cons p rest ih => exact sorted_insertPair p ih

theorem sortPairs_keys_sorted (l : List (String × Value)) :
    List.Pairwise (fun a b : String => a ≤ b) ((sortPairs l).map Prod.fst) := by
  rw [List.pairwise_map]
  exact sorted_sortPairs l

/-- Claim C1: the claim says that an attempted, validated lane whose
updater returns zero rows affected and no error message yields the line
Reconcile Date Not Updated: Reconcile Date is already populated.  The
code instead sends (0, none) through the truthiness test on the row
count into the error branch, committing and then writing
Reconcile Date Not Updated: None; the already-populated line is
unreachable for that result.  This theorem evaluates the Detail Record
lane on a valid row with a (0, none) database behaviour. -/
theorem claim1_zero_rows_writes_none_line :
    laneDetailRecord exZeroRows rowDetailOk "01/15/2024" "N" =
      ([Event.out "DetailRecord Table Update Status:",
        Event.sql Handle.p2p SqlKey.update_detail_record
          [Param.str "01/15/2024", Param.int 123],
        Event.commit Handle.p2p,
        Event.out "Reconcile Date Not Updated: None"], none) ∧
    Event.out "Reconcile Date Not Updated: Reconcile Date is already populated" ∉
      (laneDetailRecord exZeroRows rowDetailOk "01/15/2024" "N").1 := by
  constructor
  · rfl
  · decide

/-- Claim C2: the claim says per-lane processing never raises, for any
field values including empty cells in flag columns.  The code calls
upper() on the flag cell, and parse_recon_file stores None for an empty
cell, so a row whose UPDATE_DETAIL_RECORD cell is empty raises
AttributeError after the row header is written and processes no lane. -/
theorem claim2_empty_flag_cell_raises :
    processTran exZeroRows rowNoneFlag "01/15/2024" "N" 2 =
      ([Event.out "Row 2:", Event.out sep75, Event.out "UPDATE_DETAIL_RECORD: N/A"],
       some "AttributeError: NoneType object has no attribute upper") := by
  rfl

/-- Claim C3: for every attempted, validated lane, under report-only N
the lane commits its handle exactly once immediately after the database
call and never rolls back, and under report-only Y it rolls back exactly
once immediately after the call and never commits; the trace of each
lane is exactly label, statement, commit-or-rollback, outcome line. -/
theorem claim3_commit_rollback_policy (ex : ExecFn) (tran : Row) (rdate : String) :
    (flagIsY tran "UPDATE_DETAIL_RECORD" → detailValid tran = true →
      (∃ k ps m, laneDetailRecord ex tran rdate "N" =
        ([Event.out "DetailRecord Table Update Status:", Event.sql Handle.p2p k ps,
          Event.commit Handle.p2p, Event.out m], none)) ∧
      (∃ k ps m, laneDetailRecord ex tran rdate "Y" =
        ([Event.out "DetailRecord Table Update Status:", Event.sql Handle.p2p k ps,
          Event.rollback Handle.p2p, Event.out m], none))) ∧
    (flagIsY tran "UPDATE_PAYMENT" → paymentValid tran = true →
      (∃ k ps m, lanePayment ex tran rdate "N" =
        ([Event.out "Payment Table Update Status:", Event.sql Handle.p2p k ps,
          Event.commit Handle.p2p, Event.out m], none)) ∧
      (∃ k ps m, lanePayment ex tran rdate "Y" =
        ([Event.out "Payment Table Update Status:", Event.sql Handle.p2p k ps,
          Event.rollback Handle.p2p, Event.out m], none))) ∧
    (flagIsY tran "UPDATE_RTXN" → rtxnValid tran = true →
      (∃ k ps m, laneRTXN ex tran rdate "N" =
        ([Event.out "RTXN Entity Attribute Update Status:", Event.sql Handle.dna k ps,
          Event.commit Handle.dna, Event.out m], none)) ∧
      (∃ k ps m, laneRTXN ex tran rdate "Y" =
        ([Event.out "RTXN Entity Attribute Update Status:", Event.sql Handle.dna k ps,
          Event.rollback Handle.dna, Event.out m], none))) ∧
    (flagIsY tran "UPDATE_MC" → mcValid tran = true →
      (∃ k ps m, laneMC ex tran rdate "N" =
        ([Event.out "MC_ZELDLY Recon Table Update:", Event.sql Handle.dna k ps,
          Event.commit Handle.dna, Event.out m], none)) ∧
      (∃ k ps m, laneMC ex tran rdate "Y" =
        ([Event.out "MC_ZELDLY Recon Table Update:", Event.sql Handle.dna k ps,
          Event.rollback Handle.dna, Event.out m], none))) ∧
    (flagIsY tran "UPDATE_VISA" → visaValid tran = true →
      (∃ k ps m, laneVISA ex tran rdate "N" =
        ([Event.out "VISA_RW3 Recon Table Update:", Event.sql Handle.dna k ps,
          Event.commit Handle.dna, Event.out m], none)) ∧
      (∃ k ps m, laneVISA ex tran rdate "Y" =
        ([Event.out "VISA_RW3 Recon Table Update:", Event.sql Handle.dna k ps,
          Event.rollback Handle.dna, Event.out m], none))) := by
  refine ⟨fun hf hv => ⟨?_, ?_⟩, fun hf hv => ⟨?_, ?_⟩, fun hf hv => ⟨?_, ?_⟩,
    fun hf hv => ⟨?_, ?_⟩, fun hf hv => ⟨?_, ?_⟩⟩
  · obtain ⟨k, ps, n, em, h⟩ := laneDetailRecord_shape ex tran rdate "N" hf hv
    exact ⟨k, ps, outcomeMsg n em rdate, by simpa using h⟩
  · obtain ⟨k, ps, n, em, h⟩ := laneDetailRecord_shape ex tran rdate "Y" hf hv
    exact ⟨k, ps, outcomeMsg n em rdate, by simpa using h⟩
  · obtain ⟨k, ps, n, em, h⟩ := lanePayment_shape ex tran rdate "N" hf hv
    exact ⟨k, ps, outcomeMsg n em rdate, by simpa using h⟩
  · obtain ⟨k, ps, n, em, h⟩ := lanePayment_shape ex tran rdate "Y" hf hv
    exact ⟨k, ps, outcomeMsg n em rdate, by simpa using h⟩
  · obtain ⟨k, ps, n, em, h⟩ := laneRTXN_shape ex tran rdate "N" hf hv
    exact ⟨k, ps, outcomeMsg n em rdate, by simpa using h⟩
  · obtain ⟨k, ps, n, em, h⟩ := laneRTXN_shape ex tran rdate "Y" hf hv
    exact ⟨k, ps, outcomeMsg n em rdate, by simpa using h⟩
  · obtain ⟨k, ps, n, em, h⟩ := laneMC_shape ex tran rdate "N" hf hv
    exact ⟨k, ps, outcomeMsg n em rdate, by simpa using h⟩
  · obtain ⟨k, ps, n, em, h⟩ := laneMC_shape ex tran rdate "Y" hf hv
    exact ⟨k, ps, outcomeMsg n em rdate, by simpa using h⟩
  · obtain ⟨k, ps, n, em, h⟩ := laneVISA_shape ex tran rdate "N" hf hv
    exact ⟨k, ps, outcomeMsg n em rdate, by simpa using h⟩
  · obtain ⟨k, ps, n, em, h⟩ := laneVISA_shape ex tran rdate "Y" hf hv
    exact ⟨k, ps, outcomeMsg n em rdate, by simpa using h⟩

/-- Witness for claim C3 at a concrete valid Detail Record row in apply
mode: the hypotheses hold and the lane commits exactly once. -/
theorem claim3_witness :
    flagIsY rowDetailOk "UPDATE_DETAIL_RECORD" ∧ detailValid rowDetailOk = true ∧
    (∃ k ps m, laneDetailRecord exOneRow rowDetailOk "01/15/2024" "N" =
      ([Event.out "DetailRecord Table Update Status:", Event.sql Handle.p2p k ps,
        Event.commit Handle.p2p, Event.out m], none)) :=
  ⟨rfl, by decide,
   ((claim3_commit_rollback_policy exOneRow rowDetailOk "01/15/2024").1 rfl (by decide)).1⟩

/-- Claim C4, counterexample: the claim says any lane whose flag is not
Y is skipped entirely and the five lanes are evaluated in order.  On a
row whose UPDATE_MC cell is empty (None, hence not Y) while UPDATE_VISA
is Y with valid fields, processing raises at the Mastercard flag and the
Visa lane is never evaluated: its section is absent from the trace. -/
theorem claim4_counterexample :
    processTran exOneRow rowMcNoneVisaY "01/15/2024" "N" 2 =
      ([Event.out "Row 2:", Event.out sep75, Event.out (tran_line rowMcNoneVisaY)],
       some "AttributeError: NoneType object has no attribute upper") ∧
    Event.out "VISA_RW3 Recon Table Update:" ∉
      (processTran exOneRow rowMcNoneVisaY "01/15/2024" "N" 2).1 := by
  constructor
  · rfl
  · decide

/-- Claim C4 (amended): the five lanes are evaluated in the fixed order
Detail Record, Payment, RTXN, Mastercard, Visa, and any lane whose flag
field is a string that does not upper-case to Y is skipped entirely:
it contributes no events (no outcome line, no report section, no
database call).  A non-string flag value instead raises. -/
theorem claim4_order_and_skip (ex : ExecFn) (tran : Row) (rdate rpt : String) (rc : Nat) :
    processTran ex tran rdate rpt rc =
      Res.seq ([Event.out ("Row " ++ toString rc ++ ":"), Event.out sep75,
                Event.out (tran_line tran)], none)
        (Res.seq (laneDetailRecord ex tran rdate rpt)
          (Res.seq (lanePayment ex tran rdate rpt)
            (Res.seq (laneRTXN ex tran rdate rpt)
              (Res.seq (laneMC ex tran rdate rpt)
                (Res.seq (laneVISA ex tran rdate rpt) ([Event.out ""], none)))))) ∧
    (∀ f : String, pyToUpper f ≠ "Y" →
      (tran.getD "UPDATE_DETAIL_RECORD" (Value.vStr "") = Value.vStr f →
        laneDetailRecord ex tran rdate rpt = ([], none)) ∧
      (tran.getD "UPDATE_PAYMENT" (Value.vStr "") = Value.vStr f →
        lanePayment ex tran rdate rpt = ([], none)) ∧
      (tran.getD "UPDATE_RTXN" (Value.vStr "") = Value.vStr f →
        laneRTXN ex tran rdate rpt = ([], none)) ∧
      (tran.getD "UPDATE_MC" (Value.vStr "") = Value.vStr f →
        laneMC ex tran rdate rpt = ([], none)) ∧
      (tran.getD "UPDATE_VISA" (Value.vStr "") = Value.vStr f →
        laneVISA ex tran rdate rpt = ([], none))) :=
  ⟨rfl, fun f hne =>
    ⟨fun hf => laneDetailRecord_skip ex tran rdate rpt f hf hne,
     fun hf => lanePayment_skip ex tran rdate rpt f hf hne,
     fun hf => laneRTXN_skip ex tran rdate rpt f hf hne,
     fun hf => laneMC_skip ex tran rdate rpt f hf hne,
     fun hf => laneVISA_skip ex tran rdate rpt f hf hne⟩⟩

/-- Witness for claim C4 at a concrete row whose Detail Record flag is
the string n: the lane is skipped with no events. -/
theorem claim4_witness :
    pyToUpper "n" ≠ "Y" ∧
    rowFlagLower.getD "UPDATE_DETAIL_RECORD" (Value.vStr "") = Value.vStr "n" ∧
    laneDetailRecord exOneRow rowFlagLower "01/15/2024" "N" = ([], none) :=
  ⟨by decide, rfl,
   ((claim4_order_and_skip exOneRow rowFlagLower "01/15/2024" "N" 1).2 "n" (by decide)).1 rfl⟩

/-- Claim C5: for every attempted lane whose validation fails, no
database call is made, neither commit nor rollback is invoked on any
handle, nothing is raised, and the lane contributes only report lines
(its section label and the validation reasons).  For the Visa lane the
tran-type cell is a string or falsy, matching the data model in which
identifier fields are strings or null. -/
theorem claim5_validation_failure_no_db (ex : ExecFn) (tran : Row) (rdate rpt : String) :
    (flagIsY tran "UPDATE_DETAIL_RECORD" → detailValid tran = false →
      laneDetailRecord ex tran rdate rpt =
        ([Event.out "DetailRecord Table Update Status:",
          Event.out "Reconcile Date Not Updated: DetailRecord Id is undefined or non numeric"],
         none) ∧
      laneInert (laneDetailRecord ex tran rdate rpt)) ∧
    (flagIsY tran "UPDATE_PAYMENT" → paymentValid tran = false →
      lanePayment ex tran rdate rpt =
        ([Event.out "Payment Table Update Status:",
          Event.out "Reconcile Date Not Updated: Payment Id is undefined or non numeric"],
         none) ∧
      laneInert (lanePayment ex tran rdate rpt)) ∧
    (flagIsY tran "UPDATE_RTXN" → rtxnValid tran = false →
      laneInert (laneRTXN ex tran rdate rpt)) ∧
    (flagIsY tran "UPDATE_MC" → mcValid tran = false →
      laneMC ex tran rdate rpt =
        ([Event.out "MC_ZELDLY Recon Table Update:",
          Event.out "Reconcile Date Not Updated: NETWORK_ID is undefined"], none) ∧
      laneInert (laneMC ex tran rdate rpt)) ∧
    (flagIsY tran "UPDATE_VISA" → strOrFalsy (tran.getD "TRAN_TYPE" Value.vNone) →
      visaValid tran = false → laneInert (laneVISA ex tran rdate rpt)) := by
  refine ⟨fun hf hv => ?_, fun hf hv => ?_, fun hf hv => ?_, fun hf hv => ?_,
    fun hf hst hv => ?_⟩
  · have h := laneDetailRecord_invalid ex tran rdate rpt hf hv
    exact ⟨h, h ▸ inert_two _ _⟩
  · have h := lanePayment_invalid ex tran rdate rpt hf hv
    exact ⟨h, h ▸ inert_two _ _⟩
  · exact laneRTXN_inert ex tran rdate rpt hf hv
  · have h := laneMC_invalid ex tran rdate rpt hf hv
    exact ⟨h, h ▸ inert_two _ _⟩
  · exact laneVISA_inert ex tran rdate rpt hf hst hv

/-- Witness for claim C5 at the concrete RTXN scenario row. -/
theorem claim5_witness :
    flagIsY rowRtxnScenario "UPDATE_RTXN" ∧ rtxnValid rowRtxnScenario = false ∧
    laneInert (laneRTXN exOneRow rowRtxnScenario "01/15/2024" "N") :=
  ⟨rfl, by decide,
   (claim5_validation_failure_no_db exOneRow rowRtxnScenario "01/15/2024" "N").2.2.1
     rfl (by decide)⟩

/-- Claim C6: the SQL executor executes the statement once and returns
the pair (rows affected, none) on success; on any execution failure it
returns (0, message); it is a total function and never propagates. -/
theorem claim6_execute_sql_contract (call : Option (List Param) → Except String Int)
    (params : Option (List Param)) :
    (∀ n, cursorCall call params = Except.ok n → execute_sql call params = (n, none)) ∧
    (∀ e, cursorCall call params = Except.error e → execute_sql call params = (0, some e)) := by
  constructor <;> intro x hx <;> simp [execute_sql, hx]

/-- Witness for claim C6 at a concrete cursor behaviour. -/
theorem claim6_witness :
    cursorCall callOk none = Except.ok 3 ∧ execute_sql callOk none = (3, none) :=
  ⟨rfl, (claim6_execute_sql_contract callOk none).1 3 rfl⟩

/-- Claim C7: validation is independent per field.  An RTXN lane with
ACCTNBR abc and RTXNNBR 456 writes exactly the section label and the one
ACCTNBR failure line, and a Visa lane with empty NETWORK_ID and a valid
TRAN_TYPE writes exactly the label and the one NETWORK_ID line; in both
cases no statement is executed, for any database behaviour. -/
theorem claim7_per_field_validation (ex : ExecFn) (rdate rpt : String) :
    laneRTXN ex rowRtxnScenario rdate rpt =
      ([Event.out "RTXN Entity Attribute Update Status:",
        Event.out "Reconcile Date Not Updated: ACCTNBR is undefined or non-numeric"], none) ∧
    sqlCalls (laneRTXN ex rowRtxnScenario rdate rpt).1 = 0 ∧
    laneVISA ex rowVisaScenario rdate rpt =
      ([Event.out "VISA_RW3 Recon Table Update:",
        Event.out "Reconcile Date Not Updated: NETWORK_ID is undefined"], none) ∧
    sqlCalls (laneVISA ex rowVisaScenario rdate rpt).1 = 0 := by
  exact ⟨rfl, rfl, rfl, rfl⟩

/-- Claim C8: exactly one effective reconcile date exists per
invocation, computed before any row is processed: the engine equals the
row loop run with that single date; the override 01-15-2024 normalizes
to 01/15/2024; with no override the current date string is used; and in
every lane, any line of the form Reconcile Date Updated: d carries
exactly the run date. -/
theorem claim8_single_effective_date :
    (∀ today : String, effectiveDate (some "01-15-2024") today = "01/15/2024") ∧
    (∀ today : String, effectiveDate none today = today) ∧
    (∀ (ex : ExecFn) (trans : List Row) (dateArg : Option String) (rpt today : String),
      runEngine ex trans dateArg rpt today =
        rowsLoop ex trans (effectiveDate dateArg today) rpt 1) ∧
    (∀ (ex : ExecFn) (tran : Row) (rdate rpt d : String),
      (Event.out ("Reconcile Date Updated: " ++ d) ∈
        (laneDetailRecord ex tran rdate rpt).1 → d = rdate) ∧
      (Event.out ("Reconcile Date Updated: " ++ d) ∈
        (lanePayment ex tran rdate rpt).1 → d = rdate) ∧
      (Event.out ("Reconcile Date Updated: " ++ d) ∈
        (laneRTXN ex tran rdate rpt).1 → d = rdate) ∧
      (Event.out ("Reconcile Date Updated: " ++ d) ∈
        (laneMC ex tran rdate rpt).1 → d = rdate) ∧
      (Event.out ("Reconcile Date Updated: " ++ d) ∈
        (laneVISA ex tran rdate rpt).1 → d = rdate)) := by
  refine ⟨fun today => rfl, fun today => rfl, fun ex trans dateArg rpt today => rfl,
    fun ex tran rdate rpt d => ?_⟩
  exact ⟨laneDetailRecord_upd ex tran rdate rpt d, lanePayment_upd ex tran rdate rpt d,
    laneRTXN_upd ex tran rdate rpt d, laneMC_upd ex tran rdate rpt d,
    laneVISA_upd ex tran rdate rpt d⟩

/-- Witness for claim C8 at a concrete updated Detail Record lane. -/
theorem claim8_witness :
    Event.out ("Reconcile Date Updated: " ++ "01/15/2024") ∈
      (laneDetailRecord exOneRow rowDetailOk "01/15/2024" "N").1 ∧
    "01/15/2024" = "01/15/2024" :=
  ⟨by decide,
   (claim8_single_effective_date.2.2.2 exOneRow rowDetailOk "01/15/2024" "N" "01/15/2024").1
     (by decide)⟩

/-- Claim C9: for every attempted, validated lane and every value of the
report-only flag, the transactional action after the database call is
commit exactly when the flag is the exact string N, and rollback for
every other value, so an unrecognized flag behaves as a dry run. -/
theorem claim9_exact_string_N_comparison (ex : ExecFn) (tran : Row) (rdate rpt : String) :
    (flagIsY tran "UPDATE_DETAIL_RECORD" → detailValid tran = true →
      ∃ k ps m, laneDetailRecord ex tran rdate rpt =
        ([Event.out "DetailRecord Table Update Status:", Event.sql Handle.p2p k ps,
          (if rpt = "N" then Event.commit Handle.p2p else Event.rollback Handle.p2p),
          Event.out m], none)) ∧
    (flagIsY tran "UPDATE_PAYMENT" → paymentValid tran = true →
      ∃ k ps m, lanePayment ex tran rdate rpt =
        ([Event.out "Payment Table Update Status:", Event.sql Handle.p2p k ps,
          (if rpt = "N" then Event.commit Handle.p2p else Event.rollback Handle.p2p),
          Event.out m], none)) ∧
    (flagIsY tran "UPDATE_RTXN" → rtxnValid tran = true →
      ∃ k ps m, laneRTXN ex tran rdate rpt =
        ([Event.out "RTXN Entity Attribute Update Status:", Event.sql Handle.dna k ps,
          (if rpt = "N" then Event.commit Handle.dna else Event.rollback Handle.dna),
          Event.out m], none)) ∧
    (flagIsY tran "UPDATE_MC" → mcValid tran = true →
      ∃ k ps m, laneMC ex tran rdate rpt =
        ([Event.out "MC_ZELDLY Recon Table Update:", Event.sql Handle.dna k ps,
          (if rpt = "N" then Event.commit Handle.dna else Event.rollback Handle.dna),
          Event.out m], none)) ∧
    (flagIsY tran "UPDATE_VISA" → visaValid tran = true →
      ∃ k ps m, laneVISA ex tran rdate rpt =
        ([Event.out "VISA_RW3 Recon Table Update:", Event.sql Handle.dna k ps,
          (if rpt = "N" then Event.commit Handle.dna else Event.rollback Handle.dna),
          Event.out m], none)) := by
  refine ⟨fun hf hv => ?_, fun hf hv => ?_, fun hf hv => ?_, fun hf hv => ?_, fun hf hv => ?_⟩
  · obtain ⟨k, ps, n, em, h⟩ := laneDetailRecord_shape ex tran rdate rpt hf hv
    exact ⟨k, ps, outcomeMsg n em rdate, h⟩
  · obtain ⟨k, ps, n, em, h⟩ := lanePayment_shape ex tran rdate rpt hf hv
    exact ⟨k, ps, outcomeMsg n em rdate, h⟩
  · obtain ⟨k, ps, n, em, h⟩ := laneRTXN_shape ex tran rdate rpt hf hv
    exact ⟨k, ps, outcomeMsg n em rdate, h⟩
  · obtain ⟨k, ps, n, em, h⟩ := laneMC_shape ex tran rdate rpt hf hv
    exact ⟨k, ps, outcomeMsg n em rdate, h⟩
  · obtain ⟨k, ps, n, em, h⟩ := laneVISA_shape ex tran rdate rpt hf hv
    exact ⟨k, ps, outcomeMsg n em rdate, h⟩

/-- Witness for claim C9 at the lowercase flag n: the lane rolls back,
not commits, because n is not the exact string N. -/
theorem claim9_witness :
    flagIsY rowDetailOk "UPDATE_DETAIL_RECORD" ∧ detailValid rowDetailOk = true ∧
    (∃ k ps m, laneDetailRecord exOneRow rowDetailOk "01/15/2024" "n" =
      ([Event.out "DetailRecord Table Update Status:", Event.sql Handle.p2p k ps,
        Event.rollback Handle.p2p, Event.out m], none)) := by
  refine ⟨rfl, by decide, ?_⟩
  obtain ⟨k, ps, m, h⟩ :=
    (claim9_exact_string_N_comparison exOneRow rowDetailOk "01/15/2024" "n").1 rfl (by decide)
  exact ⟨k, ps, m, by simpa using h⟩

/-- Claim C10: in each row field block, the pieces are emitted sorted by
field name, and every field present with a falsy value (None, the empty
string, or the number zero) is rendered as FIELD: N/A — in particular a
genuine numeric zero displays as N/A. -/
theorem claim10_field_block_rendering (tran : Row) :
    List.Pairwise (fun a b : String => a ≤ b) ((sortPairs tran).map Prod.fst) ∧
    (∀ k v, (k, v) ∈ tran → pyTruthy v = false →
      renderPair (k, v) = k ++ ": N/A" ∧ (k ++ ": N/A") ∈ tranPieces tran) ∧
    pyTruthy Value.vNone = false ∧ pyTruthy (Value.vStr "") = false ∧
    pyTruthy (Value.vInt 0) = false := by
  refine ⟨sortPairs_keys_sorted tran, ?_, rfl, by decide, by decide⟩
  intro k v hmem hfal
  have h1 : renderPair (k, v) = k ++ ": N/A" := by
    show k ++ ": " ++ (if pyTruthy v then pyStr v else "N/A") = k ++ ": N/A"
    rw [hfal, if_neg (by simp), String.append_assoc]
    rfl
  refine ⟨h1, ?_⟩
  have h2 : (k, v) ∈ sortPairs tran := mem_sortPairs_of_mem hmem
  exact h1 ▸ List.mem_map_of_mem renderPair h2

/-- Witness for claim C10 at a row carrying a numeric zero. -/
theorem claim10_witness :
    ("AMOUNT", Value.vInt 0) ∈ rowZeroAmount ∧ pyTruthy (Value.vInt 0) = false ∧
    ("AMOUNT" ++ ": N/A") ∈ tranPieces rowZeroAmount :=
  ⟨by decide, by decide,
   ((claim10_field_block_rendering rowZeroAmount).2.1 "AMOUNT" (Value.vInt 0)
     (by decide) (by decide)).2⟩

end P2P
